import Mathlib

/-!
Verification development for the premium forecasting engine
(`src/forecasting_engine.py` of the premium-forecast-app repository).

The numeric semantics of the Python code are modelled over `ℚ`.
`round(x, n)` (Python's half-to-even rounding to `n` decimal places) is
modelled by `roundTo`.  pandas DataFrames are modelled as lists of typed
records; a column that may be absent from a table is modelled as an
`Option` field.
-/

namespace PremiumForecast

/-- Python's `round` to the nearest integer, ties to even, on `ℚ`. -/
def rnd (x : ℚ) : ℤ :=
  let f := ⌊x⌋
  let r := x - (f : ℚ)
  if r < 1/2 then f
  else if 1/2 < r then f + 1
  else if f % 2 = 0 then f else f + 1

/-- Python's `round(x, n)`: round to `n` decimal places, ties to even. -/
def roundTo (n : ℕ) (x : ℚ) : ℚ := (rnd (x * 10 ^ n) : ℚ) / 10 ^ n

/-- Economic scenario definition (dataclass `Scenario`). -/
structure Scenario where
  name : String
  inflation_base : ℚ
  interest_base : ℚ
  mortality_improvement : ℚ
  description : String
deriving Repr, DecidableEq

/-- The `'base'` entry of the scenario registry `self.scenarios`. -/
def baseScenario : Scenario :=
  ⟨"Base Case", 5.0, 6.5, 1.5,
   "Moderate inflation, stable interest rates, normal mortality improvements"⟩

/-- The `'optimistic'` entry of the scenario registry. -/
def optimisticScenario : Scenario :=
  ⟨"Optimistic", 4.0, 7.5, 2.0,
   "Low inflation, higher interest rates, faster mortality improvements"⟩

/-- The `'pessimistic'` entry of the scenario registry. -/
def pessimisticScenario : Scenario :=
  ⟨"Pessimistic", 6.0, 5.5, 1.0,
   "High inflation, lower interest rates, slower mortality improvements"⟩

/-- The fixed scenario registry `self.scenarios` (India-specific). -/
def scenarios : List (String × Scenario) :=
  [("base", baseScenario), ("optimistic", optimisticScenario),
   ("pessimistic", pessimisticScenario)]

/-- A row of the historical mortality table (`mortality_df`).
`smoking_status` is optional because the column may be absent. -/
structure MortRow where
  country : String
  year : ℤ
  gender : String
  age : ℤ
  mortality_rate : ℚ
  life_expectancy : ℚ
  smoking_status : Option String
deriving Repr, DecidableEq

/-- A record produced by `project_mortality`. -/
structure MortProjRecord where
  year : ℤ
  country : String
  gender : String
  age : ℤ
  mortality_rate : ℚ
  life_expectancy : ℚ
  smoking_status : Option String
deriving Repr, DecidableEq

/-- A row of an economic table: both the historical `economic_df` and the
rows produced by `project_economics` carry exactly these columns. -/
structure EconOut where
  year : ℤ
  country : String
  inflation_rate : ℚ
  interest_rate : ℚ
  gdp_growth : ℚ
deriving Repr, DecidableEq

/-- `df['year'].max()` over a nonempty list of years (the `0` default is
never used at call sites, which guard for nonemptiness as the code does). -/
def listMax : List ℤ → ℤ
  | [] => 0
  | [x] => x
  | x :: y :: xs => max x (listMax (y :: xs))

/-- A joined premium-demographic row (`merged` in `forecast_average_premium`
at the point of the per-year aggregation, lines 409-444).  `sum_insured` is
`none` when that column is absent from the joined table. -/
structure MergedRow where
  premium_per_unit : ℚ
  sum_insured : Option ℚ
  policy_count : ℤ
  life_expectancy : ℚ
  mortality_rate : ℚ
deriving Repr, DecidableEq

/-- A row of the output of `forecast_average_premium` (`result_record`,
lines 456-471).  `average_sum_insured` is `none` when no `sum_insured`
column is present in the joined table. -/
structure ForecastRow where
  year : ℤ
  scenario : String
  average_premium : ℚ
  average_premium_per_unit : ℚ
  total_policies : ℤ
  inflation_rate : ℚ
  interest_rate : ℚ
  gdp_growth : ℚ
  average_life_expectancy : ℚ
  average_mortality_rate : ℚ
  average_sum_insured : Option ℚ
deriving Repr, DecidableEq

/-- The actual premium assigned to a joined row (lines 423-429):
`premium_per_unit * (sum_insured / 100000)` when `sum_insured` is present,
else the default ₹10-lakh multiplier `premium_per_unit * 10.0`. -/
def actualPremium (r : MergedRow) : ℚ :=
  match r.sum_insured with
  | some si => r.premium_per_unit * (si / 100000)
  | none => r.premium_per_unit * 10.0

/-- The per-year aggregation body of `forecast_average_premium`
(lines 420-473).  Takes the joined rows for the year and the economic
projection row for the year (`none` when `year_econ_filtered` is empty,
which triggers the `continue`).  Returns `none` exactly when the loop
appends no record for this year. -/
def aggregateYear (year : ℤ) (scenarioName : String) (merged : List MergedRow)
    (econ : Option EconOut) : Option ForecastRow :=
  if merged.isEmpty then none
  else
    let totalPolicies : ℤ := (merged.map (fun r => r.policy_count)).sum
    let totalPremium : ℚ := (merged.map (fun r => actualPremium r * (r.policy_count : ℚ))).sum
    let avgPremium : ℚ := if totalPolicies > 0 then totalPremium / (totalPolicies : ℚ) else 0
    let avgPremiumPerUnit : ℚ :=
      if totalPolicies > 0 then
        (merged.map (fun r => r.premium_per_unit * (r.policy_count : ℚ))).sum / (totalPolicies : ℚ)
      else 0
    match econ with
    | none => none
    | some e =>
      let avgLifeExpectancy : ℚ := (merged.map (fun r => r.life_expectancy)).sum / (merged.length : ℚ)
      let avgMortalityRate : ℚ := (merged.map (fun r => r.mortality_rate)).sum / (merged.length : ℚ)
      let avgSumInsured : Option ℚ :=
        if merged.all (fun r => r.sum_insured.isSome) then
          some (if totalPolicies > 0 then
            roundTo 0 ((merged.map (fun r => r.sum_insured.getD 0 * (r.policy_count : ℚ))).sum
              / (totalPolicies : ℚ))
          else 0)
        else none
      some { year := year
             scenario := scenarioName
             average_premium := roundTo 2 avgPremium
             average_premium_per_unit := roundTo 2 avgPremiumPerUnit
             total_policies := totalPolicies
             inflation_rate := e.inflation_rate
             interest_rate := e.interest_rate
             gdp_growth := e.gdp_growth
             average_life_expectancy := roundTo 1 avgLifeExpectancy
             average_mortality_rate := roundTo 4 avgMortalityRate
             average_sum_insured := avgSumInsured }

/-- The cumulative-inflation multiplier of `calculate_premiums`
(lines 234-247): for `year - base_year > 0` with a supplied full economic
history, the product of `(1 + inflation_rate/100)` over the history rows
with `base_year <= row.year <= year`; otherwise `1.0`.  (The code sorts
the filtered rows by year before multiplying; the product does not depend
on the order.) -/
def cumulativeInflation (baseYear year : ℤ) (econFull : Option (List EconOut)) : ℚ :=
  match econFull with
  | some hist =>
    if year - baseYear > 0 then
      ((hist.filter (fun r => decide (baseYear ≤ r.year ∧ r.year ≤ year))).map
        (fun r => 1 + r.inflation_rate / 100)).prod
    else 1.0
  | none => 1.0

/-- The longevity adjustment of `calculate_premiums` (lines 289-296):
`-0.005 * Δlife` for policy type `"Term Life"`, `+0.003 * Δlife` for any
other policy type (the `else` branch). -/
def longevityAdj (policyType : String) (lifeExpectancyChange : ℚ) : ℚ :=
  if policyType = "Term Life" then -0.005 * lifeExpectancyChange
  else 0.003 * lifeExpectancyChange

/-- Python's `range(a, b + 1)`: the integers from `a` to `b` inclusive. -/
def intRange (a b : ℤ) : List ℤ :=
  (List.range (b + 1 - a).toNat).map (fun i => a + i)

/-- `project_mortality` (lines 56-116).  Raises (models as `.error`) when the
mortality table is empty or the country is absent.  Otherwise takes the rows
at the globally latest year for the country; if there are none, falls back to
the rows at the country's own latest year (the nested `country_data.empty`
raise is unreachable once the country membership check has passed).  For each
target year and each latest row it emits the projected record with
`mortality_rate` rounded to 4 and `life_expectancy` rounded to 2 decimals. -/
def projectMortality (mort : List MortRow) (startYear endYear : ℤ) (sc : Scenario)
    (country : String) : Except String (List MortProjRecord) :=
  if mort.isEmpty then
    .error "Mortality DataFrame is empty. Please check data initialization."
  else if ¬ country ∈ mort.map (fun r => r.country) then
    .error "Country not found in mortality data."
  else
    let latestYearGlobal := listMax (mort.map (fun r => r.year))
    let latestDataFiltered :=
      mort.filter (fun r => decide (r.year = latestYearGlobal ∧ r.country = country))
    let countryData := mort.filter (fun r => decide (r.country = country))
    let latestYear :=
      if latestDataFiltered.isEmpty then listMax (countryData.map (fun r => r.year))
      else latestYearGlobal
    let latestData :=
      if latestDataFiltered.isEmpty then
        countryData.filter (fun r => decide (r.year = listMax (countryData.map (fun r => r.year))))
      else latestDataFiltered
    .ok ((intRange startYear endYear).flatMap (fun y =>
      latestData.map (fun row =>
        { year := y
          country := country
          gender := row.gender
          age := row.age
          mortality_rate :=
            roundTo 4 (row.mortality_rate * (((100 - sc.mortality_improvement) / 100) ^ (y - latestYear)))
          life_expectancy :=
            roundTo 2 (row.life_expectancy + ((y - latestYear : ℤ) : ℚ) * (sc.mortality_improvement / 100))
          smoking_status := row.smoking_status })))

/-- `project_economics` (lines 118-171).  `expNegFifth ya` models the real
number `exp(-ya / 5)` appearing in the convergence factor, and `noise k`
models the `k`-th draw of `np.random.normal` after `np.random.seed(42)`
(three draws per projected year, in the order inflation, interest, gdp).
`rngState` models the state of numpy's global generator before the call;
`np.random.seed(42)` at the top of the function replaces it, so the body
never consults it.  Only the inflation and interest rate of the latest
data row are read (the default-series `gdp_growth` of 6.5 is never used,
since projected gdp depends only on the scenario and the noise). -/
def projectEconomics (econDf : List EconOut) (startYear endYear : ℤ) (sc : Scenario)
    (country : String) (expNegFifth : ℤ → ℚ) (noise : ℕ → ℚ) (rngState : ℕ) :
    List EconOut :=
  let latestYear := listMax (econDf.map (fun r => r.year))
  let latestDataFiltered :=
    econDf.filter (fun r => decide (r.year = latestYear ∧ r.country = country))
  let countryData := econDf.filter (fun r => decide (r.country = country))
  let latest : ℚ × ℚ :=
    match latestDataFiltered with
    | r :: _ => (r.inflation_rate, r.interest_rate)
    | [] =>
      match countryData.getLast? with
      | some r => (r.inflation_rate, r.interest_rate)
      | none => (5.0, 6.5)
  (intRange startYear endYear).enum.map (fun p =>
    let i := p.1
    let y := p.2
    let ya := y - latestYear
    let conv := 1 - expNegFifth ya
    let inflation := latest.1 * (1 - conv) + sc.inflation_base * conv
      + noise (3 * i) * (1 - conv)
    let interest := latest.2 * (1 - conv) + sc.interest_base * conv
      + noise (3 * i + 1) * (1 - conv)
    let gdp := sc.inflation_base * 0.8 + noise (3 * i + 2)
    { year := y
      country := country
      inflation_rate := roundTo 2 (max 0.5 inflation)
      interest_rate := roundTo 2 (max 0.5 interest)
      gdp_growth := roundTo 2 gdp })

/-- The columns of a nonempty `forecast_average_premium` result (the keys of
`result_record`, lines 456-467; `average_sum_insured` is appended only when
the joined table carries `sum_insured`). -/
def forecastRowColumns : List String :=
  ["year", "scenario", "average_premium", "average_premium_per_unit", "total_policies",
   "inflation_rate", "interest_rate", "gdp_growth", "average_life_expectancy",
   "average_mortality_rate"]

/-- The column schema of the empty DataFrame returned by `compare_scenarios`
when every scenario fails (lines 497-499), exactly as listed in the code. -/
def emptyCompareColumns : List String :=
  ["year", "scenario", "average_premium", "total_policies", "inflation_rate",
   "interest_rate", "gdp_growth", "average_life_expectancy", "average_mortality_rate"]

/-- `compare_scenarios` (lines 477-501), abstracted over the per-scenario
forecast call (`self.forecast_average_premium`), which may raise (`.error`).
A raising scenario is caught and skipped; a successful scenario is kept only
if its result is nonempty (an empty DataFrame also lacks the `scenario`
column, so the two conditions of line 488 coincide).  The result is a pair
(column schema, concatenated rows). -/
def compareScenarios (scenarioNames : List String)
    (forecast : String → Except String (List ForecastRow)) :
    List String × List ForecastRow :=
  let allResults := scenarioNames.filterMap (fun n =>
    match forecast n with
    | .ok results => if results.isEmpty then none else some results
    | .error _ => none)
  if allResults.isEmpty then (emptyCompareColumns, [])
  else (forecastRowColumns, allResults.flatten)

/-- The latest historical year present for a country in the mortality table:
the maximum `year` over the country's rows.  `project_mortality` computes
this either directly (global latest year, when the country has rows there)
or through its fallback branch. -/
def countryLatestYear (mort : List MortRow) (c : String) : ℤ :=
  listMax ((mort.filter (fun r => decide (r.country = c))).map (fun r => r.year))

/-- A sample projected economic row used by concrete witnesses. -/
def sampleEcon : EconOut := ⟨2026, "India", 5.0, 6.5, 6.5⟩

/-- A sample two-year economic history used by concrete witnesses. -/
def sampleHistory : List EconOut :=
  [⟨2025, "India", 10, 6, 6⟩, ⟨2026, "India", 20, 6, 6⟩]

/-- A sample forecast output row used by concrete witnesses. -/
def sampleForecastRow : ForecastRow :=
  ⟨2026, "optimistic", 1000, 100, 40, 4.0, 7.5, 3.2, 70, 5, none⟩

/-- A sample per-scenario forecast callable in which only the
`"optimistic"` scenario succeeds and every other scenario raises. -/
def sampleForecast : String → Except String (List ForecastRow) :=
  fun n => if n = "optimistic" then .ok [sampleForecastRow] else .error "boom"

section Lemmas

theorem rnd_nonneg {x : ℚ} (hx : 0 ≤ x) : 0 ≤ rnd x := by
  have hf : (0 : ℤ) ≤ ⌊x⌋ := Int.floor_nonneg.mpr hx
  unfold rnd
  dsimp only
  split
  · exact hf
  · split
    · omega
    · split
      · exact hf
      · omega

theorem roundTo_nonneg (n : ℕ) {x : ℚ} (hx : 0 ≤ x) : 0 ≤ roundTo n x := by
  unfold roundTo
  have h1 : (0 : ℚ) ≤ x * 10 ^ n := by positivity
  have h2 : (0 : ℤ) ≤ rnd (x * 10 ^ n) := rnd_nonneg h1
  have h3 : (0 : ℚ) ≤ (rnd (x * 10 ^ n) : ℚ) := by exact_mod_cast h2
  positivity

theorem roundTo_zero (n : ℕ) : roundTo n 0 = 0 := by
  unfold roundTo rnd
  norm_num

theorem rnd_intCast (z : ℤ) : rnd ((z : ℚ)) = z := by
  unfold rnd
  dsimp only
  rw [Int.floor_intCast, sub_self, if_pos (by norm_num)]

theorem roundTo_eq_of_mul_pow_eq (n : ℕ) (x : ℚ) (z : ℤ)
    (h : x * 10 ^ n = (z : ℚ)) : roundTo n x = x := by
  unfold roundTo
  rw [h, rnd_intCast, ← h, mul_div_assoc, div_self (by positivity), mul_one]

theorem le_listMax {l : List ℤ} {a : ℤ} (h : a ∈ l) : a ≤ listMax l := by
  induction l with
  | nil => cases h
  | cons x xs ih =>
    cases xs with
    | nil =>
      rcases List.mem_cons.mp h with h1 | h1
      · simp [listMax, h1]
      · cases h1
    | cons y ys =>
      rcases List.mem_cons.mp h with h1 | h1
      · simp [listMax, h1]
      · exact le_trans (ih h1) (by simp [listMax])

theorem listMax_mem {l : List ℤ} (h : l ≠ []) : listMax l ∈ l := by
  induction l with
  | nil => exact absurd rfl h
  | cons x xs ih =>
    cases xs with
    | nil => simp [listMax]
    | cons y ys =>
      show max x (listMax (y :: ys)) ∈ x :: y :: ys
      rcases max_cases x (listMax (y :: ys)) with ⟨he, _⟩ | ⟨he, _⟩
      · rw [he]; exact List.mem_cons_self x _
      · rw [he]; exact List.mem_cons_of_mem x (ih (by simp))

theorem filter_year_country (l : List MortRow) (g : ℤ) (c : String) :
    l.filter (fun r => decide (r.year = g ∧ r.country = c))
      = (l.filter (fun r => decide (r.country = c))).filter (fun r => decide (r.year = g)) := by
  rw [List.filter_filter]
  apply List.filter_congr
  intro r _
  simp [Bool.and_comm]

theorem globalLatest_eq_countryLatest (mort : List MortRow) (c : String)
    (h : mort.filter (fun r =>
        decide (r.year = listMax (mort.map (fun r => r.year)) ∧ r.country = c)) ≠ []) :
    listMax (mort.map (fun r => r.year)) = countryLatestYear mort c := by
  obtain ⟨r, hr⟩ := List.exists_mem_of_ne_nil _ h
  have hr1 := (List.mem_filter.mp hr).1
  have hr2 : r.year = listMax (mort.map (fun r => r.year)) ∧ r.country = c := by
    have h2 := (List.mem_filter.mp hr).2
    simpa using h2
  have hrc : r ∈ mort.filter (fun r => decide (r.country = c)) :=
    List.mem_filter.mpr ⟨hr1, by simp [hr2.2]⟩
  apply le_antisymm
  · have hmem : r.year ∈ (mort.filter (fun r => decide (r.country = c))).map (fun r => r.year) :=
      List.mem_map_of_mem _ hrc
    have hle2 := le_listMax hmem
    rw [hr2.1] at hle2
    exact hle2
  · have hne2 : (mort.filter (fun r => decide (r.country = c))).map (fun r => r.year) ≠ [] := by
      intro hnil
      have hmem : r.year ∈ (mort.filter (fun r => decide (r.country = c))).map (fun r => r.year) :=
        List.mem_map_of_mem _ hrc
      rw [hnil] at hmem
      cases hmem
    have hmax := listMax_mem hne2
    obtain ⟨r2, hr2mem, hr2eq⟩ := List.mem_map.mp hmax
    have hr2mort : r2 ∈ mort := (List.mem_filter.mp hr2mem).1
    have hmem2 : r2.year ∈ mort.map (fun r => r.year) := List.mem_map_of_mem _ hr2mort
    have hle3 := le_listMax hmem2
    rw [hr2eq] at hle3
    exact hle3

theorem projectMortality_eq_spec (mort : List MortRow) (s e : ℤ) (sc : Scenario)
    (c : String) (hne : mort ≠ []) (hc : c ∈ mort.map (fun r => r.country)) :
    projectMortality mort s e sc c =
      .ok ((intRange s e).flatMap (fun y =>
        ((mort.filter (fun r => decide (r.country = c))).filter
            (fun r => decide (r.year = countryLatestYear mort c))).map
          (fun row =>
            { year := y
              country := c
              gender := row.gender
              age := row.age
              mortality_rate := roundTo 4 (row.mortality_rate *
                (((100 - sc.mortality_improvement) / 100) ^ (y - countryLatestYear mort c)))
              life_expectancy := roundTo 2 (row.life_expectancy +
                ((y - countryLatestYear mort c : ℤ) : ℚ) * (sc.mortality_improvement / 100))
              smoking_status := row.smoking_status }))) := by
  unfold projectMortality
  rw [if_neg (fun h => hne (List.isEmpty_iff.mp h)), if_neg (not_not_intro hc)]
  dsimp only
  by_cases hfe : mort.filter (fun r =>
      decide (r.year = listMax (mort.map (fun r => r.year)) ∧ r.country = c)) = []
  · simp only [hfe, List.isEmpty_nil, if_true]
    rfl
  · have hie : (mort.filter (fun r =>
        decide (r.year = listMax (mort.map (fun r => r.year)) ∧ r.country = c))).isEmpty
        = false := by
      rcases hb : (mort.filter (fun r =>
          decide (r.year = listMax (mort.map (fun r => r.year)) ∧ r.country = c))).isEmpty with _ | _
      · exact hb
      · exact absurd (List.isEmpty_iff.mp hb) hfe
    have hg := globalLatest_eq_countryLatest mort c hfe
    simp only [hie, Bool.false_eq_true, if_false]
    simp only [filter_year_country mort (listMax (mort.map (fun r => r.year))) c]
    simp only [hg]

end Lemmas

/-- C7: In `calculate_premiums`, for an identical positive life-expectancy
change `d`, the longevity adjustment for a `"Term Life"` cell is
`-0.005 * d` and hence negative, and the adjustment for a `"Whole Life"`
cell is `+0.003 * d` and hence positive. -/
theorem longevity_sign_asymmetry (d : ℚ) (hd : 0 < d) :
    longevityAdj "Term Life" d = -0.005 * d ∧ longevityAdj "Term Life" d < 0 ∧
    longevityAdj "Whole Life" d = 0.003 * d ∧ 0 < longevityAdj "Whole Life" d := by
  have ht : longevityAdj "Term Life" d = -0.005 * d := by
    unfold longevityAdj
    rw [if_pos rfl]
  have hw : longevityAdj "Whole Life" d = 0.003 * d := by
    unfold longevityAdj
    rw [if_neg (by decide)]
  refine ⟨ht, ?_, hw, ?_⟩
  · rw [ht]; nlinarith
  · rw [hw]; nlinarith

/-- Witness for C7 at `d = 1`. -/
theorem longevity_sign_asymmetry_witness :
    longevityAdj "Term Life" 1 < 0 ∧ 0 < longevityAdj "Whole Life" 1 :=
  ⟨(longevity_sign_asymmetry 1 one_pos).2.1,
   (longevity_sign_asymmetry 1 one_pos).2.2.2⟩

/-- C10: In `calculate_premiums`, every policy type other than
`"Term Life"` — including values outside the {Term Life, Whole Life}
enumeration — falls into the `else` branch and receives the Whole Life
longevity adjustment `+0.003 * d`. -/
theorem longevity_else_branch (pt : String) (hpt : pt ≠ "Term Life") (d : ℚ) :
    longevityAdj pt d = 0.003 * d := by
  unfold longevityAdj
  rw [if_neg hpt]

/-- Witness for C10 at the unrecognized policy type `"ULIP"`. -/
theorem longevity_else_branch_witness :
    longevityAdj "ULIP" 2 = 0.003 * 2 :=
  longevity_else_branch "ULIP" (by decide) 2

/-- C9: `project_economics` is deterministic.  Its noise comes from the
fixed stream seeded by `np.random.seed(42)` executed at the start of every
call, so its output is independent of the generator state `rng` left by
earlier calls: two consecutive calls with identical input table, year
range, scenario and country (hence identical seeded noise stream) produce
identical output sequences. -/
theorem projectEconomics_deterministic (econDf : List EconOut) (s e : ℤ)
    (sc : Scenario) (c : String) (expNegFifth : ℤ → ℚ) (noise : ℕ → ℚ)
    (rng1 rng2 : ℕ) :
    projectEconomics econDf s e sc c expNegFifth noise rng1
      = projectEconomics econDf s e sc c expNegFifth noise rng2 := rfl

/-- C8: In the aggregation of `forecast_average_premium`, the actual
premium of a joined row is `premium_per_unit * (sum_insured / 100000)`
when `sum_insured` is present and `premium_per_unit * 10.0` when it is
absent, and for a single joined row with `policy_count = 1` this actual
premium (rounded to 2 decimals) is exactly the emitted
`average_premium`. -/
theorem sum_insured_scaling (r : MergedRow) (y : ℤ) (s : String) (e : EconOut) :
    (∀ si, r.sum_insured = some si → actualPremium r = r.premium_per_unit * (si / 100000)) ∧
    (r.sum_insured = none → actualPremium r = r.premium_per_unit * 10.0) ∧
    (r.policy_count = 1 →
      (aggregateYear y s [r] (some e)).map (fun row => row.average_premium)
        = some (roundTo 2 (actualPremium r))) := by
  refine ⟨?_, ?_, ?_⟩
  · intro si hsi
    unfold actualPremium
    rw [hsi]
  · intro hnone
    unfold actualPremium
    rw [hnone]
  · intro h1
    simp [aggregateYear, h1]

/-- Witness for C8: `premium_per_unit = 50` with `sum_insured = 2500000`
yields actual premium `1250`. -/
theorem sum_insured_scaling_witness :
    actualPremium ⟨50, some 2500000, 1, 70, 5⟩ = 1250 := by
  rw [(sum_insured_scaling ⟨50, some 2500000, 1, 70, 5⟩ 2026 "base" sampleEcon).1
      2500000 rfl]
  norm_num

/-- C4: For a forecast year with positive total policy count, the emitted
`average_premium` is the policy-count-weighted mean of the actual premiums
over the joined rows, and `average_premium_per_unit` is the analogous
weighted mean of `premium_per_unit` (each rounded to 2 decimals, as in the
code). -/
theorem weighted_mean_correct (year : ℤ) (s : String) (merged : List MergedRow)
    (e : EconOut) (hne : merged ≠ [])
    (hpos : 0 < (merged.map (fun r => r.policy_count)).sum) :
    (aggregateYear year s merged (some e)).map
        (fun row => (row.average_premium, row.average_premium_per_unit))
      = some
        (roundTo 2 ((merged.map (fun r => actualPremium r * (r.policy_count : ℚ))).sum
            / (((merged.map (fun r => r.policy_count)).sum : ℤ) : ℚ)),
         roundTo 2 ((merged.map (fun r => r.premium_per_unit * (r.policy_count : ℚ))).sum
            / (((merged.map (fun r => r.policy_count)).sum : ℤ) : ℚ))) := by
  have hie : merged.isEmpty = false := by
    simp [List.isEmpty_iff, hne]
  simp [aggregateYear, hie, hpos]

/-- Witness for C4: two joined cells with policy counts {10, 30} and
actual premiums {100, 200} (per-unit premiums {10, 20} with no
`sum_insured`, so the ×10 default applies) yield `average_premium = 175`. -/
theorem weighted_mean_witness :
    (aggregateYear 2026 "base"
        [⟨10, none, 10, 70, 5⟩, ⟨20, none, 30, 72, 4⟩] (some sampleEcon)).map
        (fun row => (row.average_premium, row.average_premium_per_unit))
      = some (175, 17.5) := by
  rw [weighted_mean_correct 2026 "base"
      [⟨10, none, 10, 70, 5⟩, ⟨20, none, 30, 72, 4⟩] sampleEcon
      (by decide) (by decide)]
  norm_num [actualPremium]
  rw [roundTo_eq_of_mul_pow_eq 2 175 17500 (by norm_num),
      roundTo_eq_of_mul_pow_eq 2 (35/2) 1750 (by norm_num)]
  norm_num

/-- C1 counterexample: a year whose premium-demographic join is nonempty
but whose total policy count is zero is NOT dropped — `aggregateYear`
emits a row (with zero mean and zero policies), so the claim that no
`ForecastRow` is emitted for such a year is false. -/
theorem zero_policy_counterexample :
    (aggregateYear 2026 "base" [⟨5, none, 0, 70, 5⟩] (some sampleEcon)).map
        (fun row => (row.total_policies, row.average_premium, row.average_premium_per_unit))
      = some (0, 0, 0) := by
  simp [aggregateYear, roundTo_zero]

/-- C1 (amended): for a forecast year whose join is nonempty but whose
total policy count is zero, the loop still emits a `ForecastRow`, with
`average_premium = 0`, `average_premium_per_unit = 0` and
`total_policies = 0` (the guarded division yields `0`, never NaN/Inf). -/
theorem zero_policy_row_emitted (year : ℤ) (s : String) (merged : List MergedRow)
    (e : EconOut) (hne : merged ≠ [])
    (hzero : (merged.map (fun r => r.policy_count)).sum = 0) :
    (aggregateYear year s merged (some e)).map
        (fun row => (row.average_premium, row.average_premium_per_unit, row.total_policies))
      = some (0, 0, 0) := by
  have hie : merged.isEmpty = false := by
    simp [List.isEmpty_iff, hne]
  simp [aggregateYear, hie, hzero, roundTo_zero]

/-- Witness for C1 (amended) at a concrete zero-count joined row. -/
theorem zero_policy_row_emitted_witness :
    (aggregateYear 2027 "base" [⟨7, some 500000, 0, 60, 3⟩] (some sampleEcon)).map
        (fun row => (row.average_premium, row.average_premium_per_unit, row.total_policies))
      = some (0, 0, 0) :=
  zero_policy_row_emitted 2027 "base" [⟨7, some 500000, 0, 60, 3⟩] sampleEcon
    (by decide) (by decide)

/-- C5: In `calculate_premiums`, the cumulative-inflation multiplier is
exactly `1` for every target year at or before the base year (also when no
full history is supplied), and for later years it is the compounded
product of `(1 + inflation_rate/100)` over the supplied full economic
history rows from the base year up to and including the target year. -/
theorem cumulative_inflation_correct (baseYear year : ℤ) (hist : List EconOut) :
    (year ≤ baseYear →
      cumulativeInflation baseYear year (some hist) = 1 ∧
      cumulativeInflation baseYear year none = 1) ∧
    (baseYear < year →
      cumulativeInflation baseYear year (some hist)
        = ((hist.filter (fun r => decide (baseYear ≤ r.year ∧ r.year ≤ year))).map
            (fun r => 1 + r.inflation_rate / 100)).prod) := by
  refine ⟨fun hle => ⟨?_, ?_⟩, fun hlt => ?_⟩
  · simp only [cumulativeInflation]
    rw [if_neg (by omega : ¬ year - baseYear > 0)]
    norm_num
  · simp only [cumulativeInflation]
    norm_num
  · simp only [cumulativeInflation]
    rw [if_pos (by omega : year - baseYear > 0)]

/-- C6: `project_mortality` emits, for every target year `y` and every
source row at the country's latest historical year `L` (the maximum `year`
over the country's rows, whether reached through the direct branch or the
fallback branch), a record with
`mortality_rate = rate(latest) * ((100 - improvement)/100) ^ (y - L)` and
`life_expectancy = life_expectancy(latest) + (y - L) * (improvement/100)`
(rounded to 4 and 2 decimals, as in the code). -/
theorem mortality_projection_formula (mort : List MortRow) (s e : ℤ) (sc : Scenario)
    (c : String) (hne : mort ≠ []) (hc : c ∈ mort.map (fun r => r.country)) :
    projectMortality mort s e sc c =
      .ok ((intRange s e).flatMap (fun y =>
        ((mort.filter (fun r => decide (r.country = c))).filter
            (fun r => decide (r.year = countryLatestYear mort c))).map
          (fun row =>
            { year := y
              country := c
              gender := row.gender
              age := row.age
              mortality_rate := roundTo 4 (row.mortality_rate *
                (((100 - sc.mortality_improvement) / 100) ^ (y - countryLatestYear mort c)))
              life_expectancy := roundTo 2 (row.life_expectancy +
                ((y - countryLatestYear mort c : ℤ) : ℚ) * (sc.mortality_improvement / 100))
              smoking_status := row.smoking_status }))) :=
  projectMortality_eq_spec mort s e sc c hne hc

/-- Witness for C6 at a one-row table and a 50%-improvement scenario,
where both formulas evaluate exactly: `4 * (0.5)^2 = 1` and
`65 + 2 * 0.5 = 66`. -/
theorem mortality_projection_formula_witness :
    projectMortality [⟨"India", 2024, "Female", 40, 4, 65, none⟩] 2026 2026
        ⟨"Custom", 5, 6, 50, "synthetic"⟩ "India"
      = .ok [⟨2026, "India", "Female", 40, 1, 66, none⟩] := by
  rw [mortality_projection_formula [⟨"India", 2024, "Female", 40, 4, 65, none⟩] 2026 2026
      ⟨"Custom", 5, 6, 50, "synthetic"⟩ "India" (by simp) (by simp)]
  have hL : countryLatestYear [(⟨"India", 2024, "Female", 40, 4, 65, none⟩ : MortRow)]
      "India" = 2024 := by decide
  simp only [hL]
  have hflt : (([(⟨"India", 2024, "Female", 40, 4, 65, none⟩ : MortRow)].filter
      (fun r => decide (r.country = "India"))).filter (fun r => decide (r.year = 2024)))
      = [⟨"India", 2024, "Female", 40, 4, 65, none⟩] := by decide
  simp only [hflt]
  have hrange : intRange 2026 2026 = [2026] := by decide
  simp only [hrange, List.flatMap_cons, List.flatMap_nil, List.append_nil,
    List.map_cons, List.map_nil]
  norm_num [roundTo, rnd]

/-- C2 counterexample: `project_mortality` performs no clamping.  With a
source row of positive mortality rate and nonnegative life expectancy
(`life_expectancy = 1`) and a start year 100 years before the latest
historical year (`years_ahead = -100`), the base scenario projects
`life_expectancy = 1 + (-100) * 0.015 = -0.5 < 0`, so the claim that
projected life expectancy is never negative is false. -/
theorem projection_negative_life_expectancy :
    (projectMortality [⟨"India", 2020, "Male", 30, 5, 1, none⟩] 1920 1920
        baseScenario "India").toOption.map (fun l => l.map (fun rec => rec.life_expectancy))
      = some [-0.5] ∧ ((-0.5 : ℚ) < 0) := by
  constructor
  · rw [projectMortality_eq_spec [⟨"India", 2020, "Male", 30, 5, 1, none⟩] 1920 1920
        baseScenario "India" (by simp) (by simp)]
    have hL : countryLatestYear [(⟨"India", 2020, "Male", 30, 5, 1, none⟩ : MortRow)]
        "India" = 2020 := by decide
    simp only [hL]
    have hflt : (([(⟨"India", 2020, "Male", 30, 5, 1, none⟩ : MortRow)].filter
        (fun r => decide (r.country = "India"))).filter (fun r => decide (r.year = 2020)))
        = [⟨"India", 2020, "Male", 30, 5, 1, none⟩] := by decide
    simp only [hflt]
    have hrange : intRange 1920 1920 = [1920] := by decide
    simp only [hrange, List.flatMap_cons, List.flatMap_nil, List.append_nil,
      List.map_cons, List.map_nil, Except.toOption, Option.map_some]
    norm_num [roundTo, rnd, baseScenario]
  · norm_num

/-- C2 (amended): given a scenario with `0 ≤ improvement < 100` and source
rows with positive mortality rate and nonnegative life expectancy, every
record projected by `project_mortality` has nonnegative `mortality_rate`
(for all `years_ahead`, positive or negative), and nonnegative
`life_expectancy` whenever its year is at or after the country's latest
historical year (`years_ahead ≥ 0`); for negative `years_ahead` the
unclamped linear formula can go negative, as the counterexample shows. -/
theorem projection_nonneg (mort : List MortRow) (s e : ℤ) (sc : Scenario) (c : String)
    (hne : mort ≠ []) (hc : c ∈ mort.map (fun r => r.country))
    (himp0 : 0 ≤ sc.mortality_improvement) (himp1 : sc.mortality_improvement < 100)
    (hrate : ∀ r ∈ mort, r.country = c → 0 < r.mortality_rate)
    (hle : ∀ r ∈ mort, r.country = c → 0 ≤ r.life_expectancy)
    (out : List MortProjRecord)
    (hout : projectMortality mort s e sc c = .ok out) :
    ∀ rec ∈ out, 0 ≤ rec.mortality_rate ∧
      (countryLatestYear mort c ≤ rec.year → 0 ≤ rec.life_expectancy) := by
  rw [projectMortality_eq_spec mort s e sc c hne hc] at hout
  injection hout with hout2
  subst hout2
  intro rec hrec
  rw [List.mem_flatMap] at hrec
  obtain ⟨y, hy, hrec2⟩ := hrec
  rw [List.mem_map] at hrec2
  obtain ⟨row, hrow, hreceq⟩ := hrec2
  have hrowc : row.country = c := by
    have h1 := (List.mem_filter.mp ((List.mem_filter.mp hrow).1)).2
    simpa using h1
  have hrowmort : row ∈ mort := (List.mem_filter.mp ((List.mem_filter.mp hrow).1)).1
  subst hreceq
  constructor
  · apply roundTo_nonneg
    have hf : (0 : ℚ) < (100 - sc.mortality_improvement) / 100 := by
      apply div_pos (by linarith) (by norm_num)
    exact le_of_lt (mul_pos (hrate row hrowmort hrowc) (zpow_pos hf _))
  · intro hyL
    apply roundTo_nonneg
    have h1 : (0 : ℚ) ≤ ((y - countryLatestYear mort c : ℤ) : ℚ) := by
      have : (0 : ℤ) ≤ y - countryLatestYear mort c := by
        have := hyL
        simp only at this
        omega
      exact_mod_cast this
    have h2 : (0 : ℚ) ≤ sc.mortality_improvement / 100 := by positivity
    exact add_nonneg (hle row hrowmort hrowc) (mul_nonneg h1 h2)

/-- Witness for C2 (amended) on a one-row table with the 50%-improvement
scenario, one year ahead of the latest historical year. -/
theorem projection_nonneg_witness :
    0 ≤ ((⟨2026, "India", "Female", 40, 1, 66, none⟩ : MortProjRecord)).mortality_rate ∧
    0 ≤ ((⟨2026, "India", "Female", 40, 1, 66, none⟩ : MortProjRecord)).life_expectancy := by
  have hout : projectMortality [⟨"India", 2024, "Female", 40, 4, 65, none⟩] 2026 2026
      ⟨"Custom", 5, 6, 50, "synthetic"⟩ "India"
      = .ok [⟨2026, "India", "Female", 40, 1, 66, none⟩] := by
    rw [projectMortality_eq_spec [⟨"India", 2024, "Female", 40, 4, 65, none⟩] 2026 2026
        ⟨"Custom", 5, 6, 50, "synthetic"⟩ "India" (by simp) (by simp)]
    have hL : countryLatestYear [(⟨"India", 2024, "Female", 40, 4, 65, none⟩ : MortRow)]
        "India" = 2024 := by decide
    simp only [hL]
    have hflt : (([(⟨"India", 2024, "Female", 40, 4, 65, none⟩ : MortRow)].filter
        (fun r => decide (r.country = "India"))).filter (fun r => decide (r.year = 2024)))
        = [⟨"India", 2024, "Female", 40, 4, 65, none⟩] := by decide
    simp only [hflt]
    have hrange : intRange 2026 2026 = [2026] := by decide
    simp only [hrange, List.flatMap_cons, List.flatMap_nil, List.append_nil,
      List.map_cons, List.map_nil]
    norm_num [roundTo, rnd]
  have h := projection_nonneg [⟨"India", 2024, "Female", 40, 4, 65, none⟩] 2026 2026
      ⟨"Custom", 5, 6, 50, "synthetic"⟩ "India" (by simp) (by simp)
      (by norm_num) (by norm_num)
      (by intro r hr hrc; rw [List.mem_singleton] at hr; subst hr; norm_num)
      (by intro r hr hrc; rw [List.mem_singleton] at hr; subst hr; norm_num)
      [⟨2026, "India", "Female", 40, 1, 66, none⟩] hout
      ⟨2026, "India", "Female", 40, 1, 66, none⟩ (List.mem_singleton.mpr rfl)
  exact ⟨h.1, h.2 (by decide)⟩

/-- Witness for C5: with base year 2024 and a 2025-2026 history of 10% and
20% inflation, the multiplier for 2023 is 1 and for 2026 is
`1.1 * 1.2 = 1.32`. -/
theorem cumulative_inflation_witness :
    cumulativeInflation 2024 2023 (some sampleHistory) = 1 ∧
    cumulativeInflation 2024 2026 (some sampleHistory) = 1.32 := by
  constructor
  · exact ((cumulative_inflation_correct 2024 2023 sampleHistory).1 (by norm_num)).1
  · rw [(cumulative_inflation_correct 2024 2026 sampleHistory).2 (by norm_num)]
    norm_num [sampleHistory, List.filter_cons, List.filter_nil, decide_eq_true_eq]

/-- C3 counterexample: when every scenario fails, `compare_scenarios`
returns the empty DataFrame whose column list (lines 497-499) does NOT
contain `average_premium_per_unit` — so the claim that the empty result
carries the full `ForecastRow` schema including `average_premium_per_unit`
is false. -/
theorem compare_scenarios_empty_schema_counterexample :
    compareScenarios ["base", "optimistic", "pessimistic"] (fun _ => .error "ValueError")
      = (emptyCompareColumns, []) ∧
    "average_premium_per_unit" ∉ emptyCompareColumns ∧
    "average_premium_per_unit" ∈ forecastRowColumns := by
  refine ⟨rfl, by decide, by decide⟩

/-- C3 (amended): a failure while forecasting one scenario is caught and
the rows of every successfully forecast scenario (with nonempty result)
still appear in the returned concatenation; when every scenario fails, the
result is empty with the 9-column schema of lines 497-499, which omits
`average_premium_per_unit` (and `average_sum_insured`), rather than
raising. -/
theorem compare_scenarios_isolation (names : List String)
    (forecast : String → Except String (List ForecastRow)) :
    (∀ n rows, n ∈ names → forecast n = .ok rows → rows ≠ [] →
      ∀ r ∈ rows, r ∈ (compareScenarios names forecast).2) ∧
    ((∀ n ∈ names, ∃ msg, forecast n = .error msg) →
      compareScenarios names forecast = (emptyCompareColumns, [])) := by
  constructor
  · intro n rows hn hok hrne r hr
    have hmem : rows ∈ names.filterMap (fun n =>
        match forecast n with
        | .ok results => if results.isEmpty then none else some results
        | .error _ => none) := by
      apply List.mem_filterMap.mpr
      refine ⟨n, hn, ?_⟩
      rw [hok]
      simp [List.isEmpty_iff, hrne]
    unfold compareScenarios
    dsimp only
    rw [if_neg (fun h => (List.ne_nil_of_mem hmem) (List.isEmpty_iff.mp h))]
    exact List.mem_flatten.mpr ⟨rows, hmem, hr⟩
  · intro hall
    have hnil : names.filterMap (fun n =>
        match forecast n with
        | .ok results => if results.isEmpty then none else some results
        | .error _ => none) = [] := by
      rw [List.filterMap_eq_nil_iff]
      intro n hn
      obtain ⟨msg, hmsg⟩ := hall n hn
      rw [hmsg]
    unfold compareScenarios
    dsimp only
    rw [hnil]
    rfl

/-- Witness for C3 (amended): with scenario list `["base", "optimistic"]`
and a forecast that fails on `"base"` and succeeds on `"optimistic"`, the
successful scenario's row survives into the result; and with an
all-failing forecast the result is the empty 9-column frame. -/
theorem compare_scenarios_isolation_witness :
    sampleForecastRow ∈ (compareScenarios ["base", "optimistic"] sampleForecast).2 ∧
    compareScenarios ["base", "optimistic"] (fun _ => .error "fail")
      = (emptyCompareColumns, []) := by
  constructor
  · exact (compare_scenarios_isolation ["base", "optimistic"] sampleForecast).1
      "optimistic" [sampleForecastRow] (by decide)
      (by rfl) (by simp) sampleForecastRow (List.mem_singleton.mpr rfl)
  · exact (compare_scenarios_isolation ["base", "optimistic"] (fun _ => .error "fail")).2
      (fun n _ => ⟨"fail", rfl⟩)

end PremiumForecast
